import Mathlib

/-
  Shallow embedding of the backup-log engine in src/backup/api.c
  (cyrus-imapd replication backup API): the reindex parse loop
  (backup_parse_command, backup_reindex) and the handle open/close path
  (backup_open_internal, backup_close), together with theorems settling
  the behavioural claims about them.

  External collaborators that are repository code outside src/
  (lib/cyr_lock lock_setlock, lib/sqldb sqldb_open) are modelled from the
  spec; everything else is translated from src/backup/api.c.
-/

set_option autoImplicit false

namespace CyrusBackup

/-- The EOF value returned by prot_getc and the parser primitives (stdio EOF). -/
def EOF : Int := -1

/-- The line-feed character, as an Int character code. -/
def LF : Int := 10

/-- The carriage-return character, as an Int character code. -/
def CR : Int := 13

/-- The verb literal the reindexer compares against (src line 289). -/
def APPLY : String := "APPLY"

/-- struct dlist, restricted to the one field the reindexer touches:
dl->name, the command-name key of the parsed payload. -/
structure Dlist where
  name : String
  deriving Repr, DecidableEq

/-- lib ucase: upper-cases the command-name field in place (src line 292). -/
def ucase (s : String) : String := String.mk (s.data.map Char.toUpper)

/-- Outcome trace of the primitive codec calls made by one invocation of
backup_parse_command (src lines 210-254).  The primitives themselves
(prot_getc, getint64, getword, dlist_parse — imap/imapparse and imap/dlist,
outside src/) are represented by the results they deliver:

* hashComment — the first prot_getc delivered a # (the comment line is
  discarded by eatline and has no effect on the result);
* intRes — the value parsed by getint64, or none when it returned EOF;
* wordRes — the verb word from getword, or none when it returned EOF;
* dlistRes — the dlist produced by dlist_parse, none when it failed;
* dlistChar — the character code c returned by dlist_parse;
* afterCR — the character delivered by the prot_getc that runs when
  dlistChar is a CR (src line 237);
* junkTs — the indeterminate value that backup_reindex reads from its
  uninitialized local `time_t ts` when this record fails to parse without
  EOF (src line 278: ts is only written on the success path, yet lines
  284-287 read it on every non-EOF iteration).  The model makes that
  indeterminate value an explicit input. -/
structure RawRecord where
  hashComment : Bool
  intRes : Option Int
  wordRes : Option String
  dlistRes : Option Dlist
  dlistChar : Int
  afterCR : Int
  junkTs : Int
  deriving Repr, DecidableEq

/-- backup_parse_command (src lines 210-254).  Returns the int c that the C
function returns, paired with (timestamp, verb, dlist) on success:

* getint64 returning EOF → goto fail, return EOF (lines 222-224);
* getword returning EOF → goto fail, return EOF (lines 226-228);
* dlist_parse leaving dl NULL → goto fail, return the c it produced
  (lines 230-235);
* after the dlist, an optional CR is consumed, then anything other than
  LF → eatline, goto fail, return that c (lines 237-242);
* otherwise success: outputs are written and c (= LF) returned. -/
def backup_parse_command (rec : RawRecord) : Int × Option (Int × String × Dlist) :=
  match rec.intRes with
  | none => (EOF, none)
  | some t =>
    match rec.wordRes with
    | none => (EOF, none)
    | some w =>
      match rec.dlistRes with
      | none => (rec.dlistChar, none)
      | some dl =>
        let c := if rec.dlistChar = CR then rec.afterCR else rec.dlistChar
        if c ≠ LF then (c, none)
        else (c, some (t, w, dl))

/-- The submission made to backup_index_dlist for one loop iteration of
backup_reindex, if any (src lines 289-294): on a successful parse whose
verb is exactly "APPLY" (strcmp, case-sensitive), the dlist name is
upper-cased and (ts, dlist) is submitted; a non-matching verb means
`continue` with nothing submitted.  On a failed parse the cmd buffer is
empty, so strcmp fails and nothing is submitted (dl is NULL there). -/
def submitOf (pr : Int × Option (Int × String × Dlist)) : Option (Int × Dlist) :=
  match pr.2 with
  | some (t, cmd, dl) =>
      if cmd = APPLY then some (t, Dlist.mk (ucase dl.name)) else none
  | none => none

/-- What one iteration of the inner while loop of backup_reindex does
(src lines 276-298). -/
inductive StepRes where
  /-- c == EOF: break out of the chunk loop (src line 282). -/
  | brk : StepRes
  /-- fatal("timestamp older than previous", -1): the process dies
  (src line 287). -/
  | fatal : StepRes
  /-- continue to the next iteration with the new cursor value and the
  index submission made, if any. -/
  | cont (member_ts : Int) (submit : Option (Int × Dlist)) : StepRes
  deriving Repr, DecidableEq

/-- One iteration of the inner while loop of backup_reindex
(src lines 276-298), given the cursor member_ts:

* if backup_parse_command returned EOF → break (line 282);
* ts is the parsed timestamp on success, and the indeterminate junk value
  on a non-EOF failure (lines 278, 281);
* if member_ts == -1 → member_ts = ts, no ordering check (lines 284-285);
* else if member_ts > ts → fatal (lines 286-287);
* else continue with member_ts unchanged — the source has no branch that
  advances an already-set cursor;
* the APPLY filter and index submission are in submitOf. -/
def chunkStep (rec : RawRecord) (member_ts : Int) : StepRes :=
  let pr := backup_parse_command rec
  if pr.1 = EOF then StepRes.brk
  else
    let ts : Int :=
      match pr.2 with
      | some (t, _, _) => t
      | none => rec.junkTs
    if member_ts = -1 then StepRes.cont ts (submitOf pr)
    else if member_ts > ts then StepRes.fatal
    else StepRes.cont member_ts (submitOf pr)

/-- The inner while(1) loop of backup_reindex over one chunk (gzip member),
src lines 276-298.  The chunk is the list of record-attempt traces the
member stream yields in order; an exhausted list behaves as getint64
returning EOF (break).  Except.error means fatal() fired: it carries the
submissions made before the abort.  Except.ok carries the final cursor and
the accumulated submissions. -/
def reindexChunk : List RawRecord → Int → List (Int × Dlist) →
    Except (List (Int × Dlist)) (Int × List (Int × Dlist))
  | [], member_ts, acc => Except.ok (member_ts, acc)
  | rec :: rest, member_ts, acc =>
    match chunkStep rec member_ts with
    | StepRes.brk => Except.ok (member_ts, acc)
    | StepRes.fatal => Except.error acc
    | StepRes.cont mts2 none => reindexChunk rest mts2 acc
    | StepRes.cont mts2 (some e) => reindexChunk rest mts2 (acc ++ [e])

/-- Outcome of backup_reindex over the whole log. -/
inductive ReindexResult where
  /-- fatal() aborted the process; these submissions had been made. -/
  | fatal (indexed : List (Int × Dlist)) : ReindexResult
  /-- all chunks were processed; these submissions were made in order. -/
  | done (indexed : List (Int × Dlist)) : ReindexResult
  deriving Repr, DecidableEq

/-- The outer member loop of backup_reindex (src lines 265-302): each chunk
restarts the cursor at -1 (line 274: `time_t member_ts = -1;` is inside the
member loop), and a fatal() inside any chunk aborts everything. -/
def reindexChunks : List (List RawRecord) → List (Int × Dlist) → ReindexResult
  | [], acc => ReindexResult.done acc
  | chunk :: rest, acc =>
    match reindexChunk chunk (-1) acc with
    | Except.error acc2 => ReindexResult.fatal acc2
    | Except.ok (_, acc2) => reindexChunks rest acc2

/-- backup_reindex (src lines 256-310) after its backup_open_internal
succeeded: the log is the list of chunks, each chunk the list of
record-attempt traces; the result is the ordered list of index submissions,
or a fatal abort.  (The C function finally calls backup_close and returns
the last backup_index_dlist result; neither affects which records are
submitted.) -/
def backup_reindex (log : List (List RawRecord)) : ReindexResult :=
  reindexChunks log []

/-- Decides whether one chunk, processed alone from an unset cursor,
completes without fatal(). -/
def chunkOk (recs : List RawRecord) : Bool :=
  match reindexChunk recs (-1) [] with
  | Except.ok _ => true
  | Except.error _ => false

/-- A record-attempt trace that parses cleanly: `<t> <verb> (<nm>)<LF>`. -/
def mkRec (t : Int) (verb nm : String) : RawRecord :=
  { hashComment := false, intRes := some t, wordRes := some verb,
    dlistRes := some (Dlist.mk nm), dlistChar := LF, afterCR := 0, junkTs := 0 }

/-- A clean APPLY record with payload command name "foo". -/
def applyRec (t : Int) : RawRecord := mkRec t APPLY ("foo")

/-- A record whose payload parses but whose terminator is a space (32)
instead of LF: backup_parse_command fails with c = 32 ≠ EOF
(src lines 237-242).  Its junk timestamp value is 0. -/
def badTermRec (t : Int) : RawRecord :=
  { hashComment := false, intRes := some t, wordRes := some APPLY,
    dlistRes := some (Dlist.mk ("foo")), dlistChar := 32, afterCR := 0, junkTs := 0 }

/-- A record attempt at end of stream: getint64 returns EOF. -/
def eofRec : RawRecord :=
  { hashComment := false, intRes := none, wordRes := none,
    dlistRes := none, dlistChar := 0, afterCR := 0, junkTs := 0 }

example : backup_parse_command (applyRec 5) = (LF, some (5, APPLY, Dlist.mk ("foo"))) := by
  decide

example : backup_parse_command (badTermRec 5) = (32, none) := by decide

example : backup_reindex [[applyRec 10, applyRec 20, applyRec 15]] =
    ReindexResult.done [(10, Dlist.mk ("FOO")), (20, Dlist.mk ("FOO")), (15, Dlist.mk ("FOO"))] := by
  decide

/-! ## The handle open/close path -/

/-- enum backup_lock_type (src lines 60-64): SHARED = 0, EXCLUSIVE = 1. -/
inductive LockType where
  | shared : LockType
  | exclusive : LockType
  deriving Repr, DecidableEq

/-- The numeric value of the lock-type enum as stored in the struct field
(src lines 60-64): BACKUP_LOCK_SHARED = 0, BACKUP_LOCK_EXCLUSIVE = 1. -/
def LockType.toNat : LockType → Nat
  | LockType.shared => 0
  | LockType.exclusive => 1

/-- enum backup_data_mode (src lines 66-71). -/
inductive DataMode where
  | normal : DataMode
  | append : DataMode
  | create : DataMode
  deriving Repr, DecidableEq

/-- enum backup_index_mode (src lines 73-78). -/
inductive IndexMode where
  | read : IndexMode
  | write : IndexMode
  | create : IndexMode
  deriving Repr, DecidableEq

/-- The lock type actually used after the data-mode switch (src lines
122-137): APPEND and CREATE overwrite the requested lock type with
EXCLUSIVE; NORMAL keeps the request. -/
def negotiatedLock (req : LockType) (dm : DataMode) : LockType :=
  match dm with
  | DataMode.normal => req
  | DataMode.append => LockType.exclusive
  | DataMode.create => LockType.exclusive

/-- The ENOENT errno value (missing file), special-cased by the rename at
src lines 164-169. -/
def ENOENT : Int := 2

/-- Outcome of a lock_setlock call. -/
inductive LockResult where
  /-- the lock was granted (return 0). -/
  | granted : LockResult
  /-- the call blocks, waiting for a conflicting holder to release. -/
  | blocks : LockResult
  /-- the call failed with this error code. -/
  | fail (e : Int) : LockResult
  deriving Repr, DecidableEq

/-- Modelled from the spec: lib/cyr_lock lock_setlock(fd, exclusive, nb,
filename), which is repository code outside src/.  Per the spec, open
"acquires a whole-file advisory lock of the negotiated type" and an
unavailable lock gives an immediate busy failure only in the non-blocking
regime; the nb argument (annotated /*nb*/ at the src line 146 call site)
selects that regime.  The model: an OS-level failure (oserr) fails the
call; otherwise a free lock is granted; otherwise, with nb set the call
fails immediately busy (EWOULDBLOCK = 11), and with nb clear the call
blocks waiting.  lockFree abstracts "no conflicting holder of the
requested type". -/
def lock_setlock (_exclusive : Bool) (nb : Bool) (lockFree : Bool)
    (oserr : Option Int) : LockResult :=
  match oserr with
  | some e => LockResult.fail e
  | none =>
    if lockFree then LockResult.granted
    else if nb then LockResult.fail 11
    else LockResult.blocks

/-- The state of the index store connection after sqldb_open succeeded. -/
structure DbState where
  /-- the schema version the connection ends at. -/
  version : Nat
  /-- the ordered upgrade steps that were applied (their target versions). -/
  appliedUpgrades : List Nat
  /-- whether the schema was freshly initialized from the init SQL. -/
  freshInit : Bool
  deriving Repr, DecidableEq

/-- Modelled from the spec: lib/sqldb sqldb_open(path, initsql, version,
upgradesql), which is repository code outside src/.  The spec contract
(section 6): "Index Store — open(path, initSchema, currentVersion,
orderedUpgradeSteps)"; "opening ... must detect an older stored version and
apply upgrade steps in order; a newer-than-known version is an open error";
a missing file with init SQL provided is initialized fresh.  The model:
stored = none (no index file) initializes fresh when initsql is provided
and fails otherwise (the spec does not cover opening a missing index
without init SQL); a stored version newer than the current one fails; an
older stored version is upgraded step by step to current when upgrade SQL
is provided, and opened as-is when it is not. -/
def sqldb_open (stored : Option Nat) (hasInitsql : Bool) (version : Nat)
    (hasUpgradesql : Bool) : Option DbState :=
  match stored with
  | none =>
    if hasInitsql then some { version := version, appliedUpgrades := [], freshInit := true }
    else none
  | some v =>
    if version < v then none
    else if v < version then
      if hasUpgradesql then
        some { version := version, appliedUpgrades := List.range' (v + 1) (version - v),
               freshInit := false }
      else some { version := v, appliedUpgrades := [], freshInit := false }
    else some { version := v, appliedUpgrades := [], freshInit := false }

/-- The environment one backup_open_internal call runs in: the outcomes the
OS and the index store deliver. -/
structure Env where
  /-- open(gzname, openflags, ...) succeeds (fd ≥ 0). -/
  openOk : Bool
  /-- errno surfaced verbatim when it does not (src line 141). -/
  openErrno : Int
  /-- no conflicting holder of the whole-file lock. -/
  lockFree : Bool
  /-- an OS-level lock error (other than a conflicting holder), if any. -/
  lockOsErr : Option Int
  /-- rename(idxname, oldidxname) fails (src line 164). -/
  renameFails : Bool
  /-- its errno when it does (ENOENT is special-cased, src line 165). -/
  renameErrno : Int
  /-- stored schema version of the existing index file, none if missing. -/
  storedIdx : Option Nat
  /-- backup_index_version, the current schema version constant
  (backup/sqlconsts.h, outside src/). -/
  currentVersion : Nat
  deriving Repr, DecidableEq

/-- struct backup (src lines 80-91) as returned fully formed on success. -/
structure Backup where
  lock_type : LockType
  data_mode : DataMode
  index_mode : IndexMode
  name : String
  gzname : String
  idxname : String
  oldidxname : Option String
  db : DbState
  deriving Repr, DecidableEq

/-- The struct-field state the error: label sees: which fields have been
filled in when the failure happens.  xzmalloc zero-fills the struct
(src line 111), so lock_type_val starts at 0 — the numeric value of
BACKUP_LOCK_SHARED. -/
structure Fields where
  /-- backup->fd ≥ 0 (set at src line 139). -/
  fd_set : Bool
  /-- the numeric backup->lock_type field (set at src line 148). -/
  lock_type_val : Nat
  /-- backup->db is non-NULL (set at src line 174). -/
  db_set : Bool
  deriving Repr, DecidableEq

/-- The cleanup actions the error: label performs (src lines 185-194). -/
structure Cleanup where
  /-- lock_unlock(backup->fd, backup->gzname) ran (src line 186). -/
  unlockCalled : Bool
  /-- close(backup->fd) ran (src line 187). -/
  fdClosed : Bool
  /-- the name/gzname/idxname/oldidxname strings were freed (lines 188-191;
  the first three are always set before any failure point). -/
  namesFreed : Bool
  /-- sqldb_close(&backup->db) ran (src line 192). -/
  dbClosed : Bool
  deriving Repr, DecidableEq

/-- The error: label of backup_open_internal (src lines 185-194).  Note
`if (backup->lock_type)` tests the numeric field value, and
BACKUP_LOCK_SHARED is 0: a held SHARED lock does not trigger the
lock_unlock call. -/
def errorUnwind (f : Fields) : Cleanup :=
  { unlockCalled := f.lock_type_val != 0
  , fdClosed := f.fd_set
  , namesFreed := true
  , dbClosed := f.db_set }

/-- Result of backup_open_internal. -/
inductive OpenOutcome where
  /-- *backupp = backup; return 0 (src lines 182-183). -/
  | ok (b : Backup) : OpenOutcome
  /-- goto error: return code r, whether the file lock had been acquired
  by this call before the failure, and the cleanup that ran. -/
  | err (r : Int) (lockAcquired : Bool) (cleanup : Cleanup) : OpenOutcome
  /-- the call is blocked inside lock_setlock waiting for the lock. -/
  | blocked : OpenOutcome
  deriving Repr, DecidableEq

/-- backup_open_internal (src lines 102-195).

* the mode asserts (lines 107-109) always hold here: the Lean mode types
  are total;
* the struct is zero-allocated with fd = -1 and the three paths derived
  from name (lines 111-117);
* the data-mode switch picks open flags, APPEND/CREATE forcing the lock
  EXCLUSIVE (lines 122-137; the default branch is unreachable);
* open(gzname, ...) failing surfaces errno and unwinds (lines 139-143);
* lock_setlock is called with the nb argument 0 (line 146), the negotiated
  exclusivity, then backup->lock_type is set (line 148);
* index_mode READ leaves initsql/upgradesql NULL; WRITE and CREATE set
  both; CREATE also renames the index aside to idxname.old, a failure
  other than ENOENT unwinding (lines 150-172);
* sqldb_open on the index path; NULL result is r = -1 and unwind
  (lines 174-178); afterwards nothing can fail: the handle is returned
  fully formed (lines 180-183). -/
def backup_open_internal (name : String) (lock_type : LockType)
    (data_mode : DataMode) (index_mode : IndexMode) (env : Env) : OpenOutcome :=
  let gzname := name ++ (".gz")
  let idxname := name ++ (".index")
  let nlock := negotiatedLock lock_type data_mode
  if env.openOk = false then
    OpenOutcome.err env.openErrno false
      (errorUnwind { fd_set := false, lock_type_val := 0, db_set := false })
  else
    match lock_setlock (decide (nlock = LockType.exclusive)) false env.lockFree env.lockOsErr with
    | LockResult.blocks => OpenOutcome.blocked
    | LockResult.fail e =>
      OpenOutcome.err e false
        (errorUnwind { fd_set := true, lock_type_val := 0, db_set := false })
    | LockResult.granted =>
      if index_mode = IndexMode.create ∧ env.renameFails = true ∧ env.renameErrno ≠ ENOENT then
        OpenOutcome.err env.renameErrno true
          (errorUnwind { fd_set := true, lock_type_val := nlock.toNat, db_set := false })
      else
        let stored : Option Nat :=
          if index_mode = IndexMode.create then
            (if env.renameFails then env.storedIdx else none)
          else env.storedIdx
        let hasSql : Bool :=
          match index_mode with
          | IndexMode.read => false
          | IndexMode.write => true
          | IndexMode.create => true
        match sqldb_open stored hasSql env.currentVersion hasSql with
        | none =>
          OpenOutcome.err (-1) true
            (errorUnwind { fd_set := true, lock_type_val := nlock.toNat, db_set := false })
        | some db =>
          OpenOutcome.ok
            { lock_type := nlock, data_mode := data_mode, index_mode := index_mode,
              name := name, gzname := gzname, idxname := idxname,
              oldidxname :=
                if index_mode = IndexMode.create then some (idxname ++ (".old")) else none,
              db := db }

/-- The resources an open handle holds, for stating what backup_close does. -/
structure World where
  /-- the whole-file advisory lock is held. -/
  lockHeld : Bool
  /-- the log file descriptor is open. -/
  fdOpen : Bool
  /-- the index connection is open. -/
  dbOpen : Bool
  /-- the caller still holds a valid (non-invalidated) handle. -/
  handleValid : Bool
  deriving Repr, DecidableEq

/-- backup_close (src lines 317-320).  The body is exactly `return -1`:
no lock release, no close, no free, no handle invalidation — the function
is an unimplemented stub, although backup_reindex calls it for teardown
(src line 307). -/
def backup_close (w : World) : World × Int := (w, -1)

/-- An environment in which every OS step succeeds. -/
def goodEnv (stored : Option Nat) (cur : Nat) : Env :=
  { openOk := true, openErrno := 0, lockFree := true, lockOsErr := none,
    renameFails := false, renameErrno := 0, storedIdx := stored, currentVersion := cur }

/-- All OS steps succeed except that a conflicting holder has the file
lock. -/
def envLocked : Env :=
  { openOk := true, openErrno := 0, lockFree := false, lockOsErr := none,
    renameFails := false, renameErrno := 0, storedIdx := some 2, currentVersion := 2 }

/-- File open and lock succeed, but the stored index schema version (3) is
newer than the current version (2), so sqldb_open fails. -/
def envDbFail : Env :=
  { openOk := true, openErrno := 0, lockFree := true, lockOsErr := none,
    renameFails := false, renameErrno := 0, storedIdx := some 3, currentVersion := 2 }

example : backup_open_internal ("n") LockType.shared DataMode.normal IndexMode.read
    (goodEnv (some 2) 2) =
    OpenOutcome.ok
      { lock_type := LockType.shared, data_mode := DataMode.normal,
        index_mode := IndexMode.read, name := ("n"), gzname := ("n.gz"),
        idxname := ("n.index"), oldidxname := none,
        db := { version := 2, appliedUpgrades := [], freshInit := false } } := by
  decide

example : backup_open_internal ("n") LockType.exclusive DataMode.normal IndexMode.read
    envLocked = OpenOutcome.blocked := by decide

example : backup_open_internal ("n") LockType.shared DataMode.normal IndexMode.read
    envDbFail =
    OpenOutcome.err (-1) true
      { unlockCalled := false, fdClosed := true, namesFreed := true, dbClosed := false } := by
  decide

/-- The cleanup trace of the error path taken when the SHARED lock is held
and the index open fails: the fd is closed, the paths freed, but the
unlock is skipped. -/
def cleanShared : Cleanup :=
  { unlockCalled := false, fdClosed := true, namesFreed := true, dbClosed := false }

/-- The handle produced by a successful open of ("n") with requested lock
SHARED, data mode APPEND, index mode WRITE in goodEnv (some 2) 2. -/
def bAppend : Backup :=
  { lock_type := LockType.exclusive, data_mode := DataMode.append,
    index_mode := IndexMode.write, name := "n", gzname := "n.gz",
    idxname := "n.index", oldidxname := none,
    db := { version := 2, appliedUpgrades := [], freshInit := false } }

/-! ## Helper lemmas about the reindex loop -/

/-- The submission accumulator is append-only: running a chunk from acc is
running it from [] with acc prefixed to both outcomes. -/
theorem reindexChunk_acc (recs : List RawRecord) :
    ∀ (mts : Int) (acc : List (Int × Dlist)),
      reindexChunk recs mts acc =
        match reindexChunk recs mts [] with
        | Except.error l => Except.error (acc ++ l)
        | Except.ok (m, l) => Except.ok (m, acc ++ l) := by
  induction recs with
  | nil =>
    intro mts acc
    simp [reindexChunk]
  | cons rec rest ih =>
    intro mts acc
    simp only [reindexChunk]
    cases h : chunkStep rec mts with
    | brk => simp
    | fatal => simp
    | cont mts2 sub =>
      cases sub with
      | none => exact ih mts2 acc
      | some e =>
        dsimp only
        rw [ih mts2 (acc ++ [e]), List.nil_append, ih mts2 [e]]
        cases hr : reindexChunk rest mts2 [] with
        | error l => simp
        | ok p =>
          cases p with
          | mk m l => simp

/-- Once the cursor is set (≠ -1), chunkStep never changes it: the only
assignment to member_ts in the source is under `if (member_ts == -1)`. -/
theorem chunkStep_cursor (rec : RawRecord) (mts : Int) (h : mts ≠ -1) (mts2 : Int)
    (sub : Option (Int × Dlist)) (hs : chunkStep rec mts = StepRes.cont mts2 sub) :
    mts2 = mts := by
  simp only [chunkStep] at hs
  split at hs
  · exact absurd hs (by simp)
  · split at hs
    · exact absurd hs (by simp)
    · exact ((StepRes.cont.injEq _ _ _ _).mp hs).1.symm

/-- Unfolding one successful parse step of the chunk loop: the cursor is
set only when unset, the record is submitted exactly when its verb is the
APPLY literal, and its dlist name is upper-cased exactly on that path. -/
theorem reindexChunk_cons_success (rec : RawRecord) (rest : List RawRecord) (mts : Int)
    (acc : List (Int × Dlist)) (t : Int) (cmd : String) (dl : Dlist)
    (hp : backup_parse_command rec = (LF, some (t, cmd, dl)))
    (hok : mts = -1 ∨ ¬ mts > t) :
    reindexChunk (rec :: rest) mts acc =
      reindexChunk rest (if mts = -1 then t else mts)
        (if cmd = APPLY then acc ++ [(t, Dlist.mk (ucase dl.name))] else acc) := by
  have hne : ¬ (LF = EOF) := by decide
  have hstep : chunkStep rec mts =
      StepRes.cont (if mts = -1 then t else mts)
        (if cmd = APPLY then some (t, Dlist.mk (ucase dl.name)) else none) := by
    by_cases hm : mts = -1
    · simp [chunkStep, hp, submitOf, hne, hm]
    · have hgt : ¬ mts > t := by
        rcases hok with h1 | h1
        · exact absurd h1 hm
        · exact h1
      simp [chunkStep, hp, submitOf, hne, hm, hgt]
  simp only [reindexChunk, hstep]
  by_cases hc : cmd = APPLY
  · simp [hc]
  · simp [hc]

/-- Fatal propagation at the member loop: a fatal() inside a chunk aborts
the whole reindex with exactly the submissions made so far. -/
theorem reindexChunks_fatal (chunk : List RawRecord) (rest : List (List RawRecord))
    (acc acc2 : List (Int × Dlist)) (h : reindexChunk chunk (-1) acc = Except.error acc2) :
    reindexChunks (chunk :: rest) acc = ReindexResult.fatal acc2 := by
  simp only [reindexChunks, h]

/-- If every chunk of the log, run alone from an unset cursor, completes
without fatal(), then the whole member loop completes, whatever the
timestamps across chunk boundaries are. -/
theorem reindexChunks_all_ok (chunks : List (List RawRecord)) :
    ∀ acc : List (Int × Dlist), chunks.all chunkOk = true →
      ∃ out, reindexChunks chunks acc = ReindexResult.done out := by
  induction chunks with
  | nil =>
    intro acc _
    exact ⟨acc, rfl⟩
  | cons c rest ih =>
    intro acc h
    simp only [List.all_cons, Bool.and_eq_true] at h
    obtain ⟨hc, hrest⟩ := h
    simp only [chunkOk] at hc
    cases hr : reindexChunk c (-1) [] with
    | error l => rw [hr] at hc; exact absurd hc (by simp)
    | ok p =>
      obtain ⟨m, l⟩ := p
      have hacc : reindexChunk c (-1) acc = Except.ok (m, acc ++ l) := by
        rw [reindexChunk_acc c (-1) acc, hr]
      simp only [reindexChunks, hacc]
      exact ih (acc ++ l) hrest

/-! ## Claim theorems -/

/-- C1, counterexample.  The claim says that for every successfully parsed
record after the first, the cursor is advanced to its timestamp (always
equalling the immediately preceding record), and that a record whose
timestamp is below the cursor aborts the whole reindex with nothing
further indexed.  On the chunk 10 APPLY, 20 APPLY, 15 APPLY the claim
therefore demands a fatal abort at the third record (15 < 20, the
preceding timestamp) with that record unindexed.  The code instead
completes the whole chunk, indexes all three records, and ends with the
cursor still 10, the first timestamp — the source never advances
member_ts once set (src lines 284-287 have no else-branch assignment). -/
theorem C1_counterexample :
    backup_reindex [[applyRec 10, applyRec 20, applyRec 15]] =
      ReindexResult.done
        [(10, Dlist.mk ("FOO")), (20, Dlist.mk ("FOO")), (15, Dlist.mk ("FOO"))]
    ∧ reindexChunk [applyRec 10, applyRec 20, applyRec 15] (-1) [] =
      Except.ok (10, [(10, Dlist.mk ("FOO")), (20, Dlist.mk ("FOO")), (15, Dlist.mk ("FOO"))]) :=
  ⟨by decide, by rfl⟩

/-- C1, amended.  During reindex, within one chunk, for every successfully
parsed record after the first: if its timestamp is less than the per-chunk
last-timestamp cursor the entire reindex aborts fatally with nothing
further indexed; otherwise the cursor is left unchanged — the cursor
always equals the value it was first set to (the timestamp of the first
successfully parsed record of the chunk whose timestamp was not -1), not
the timestamp of the immediately preceding record.

Arm 1: a chunk run that ends normally ends with the cursor it started
with, whenever that cursor was set.  Arm 2: a successfully parsed record
whose timestamp is below the set cursor makes the chunk loop abort via
fatal(), submitting nothing for it or after it.  Arm 3: a fatal() in a
chunk aborts the entire reindex with only the submissions made before. -/
theorem C1_theorem :
    (∀ (recs : List RawRecord) (mts : Int) (acc : List (Int × Dlist)) (mts2 : Int)
        (acc2 : List (Int × Dlist)), mts ≠ -1 →
        reindexChunk recs mts acc = Except.ok (mts2, acc2) → mts2 = mts)
    ∧ (∀ (rec : RawRecord) (rest : List RawRecord) (mts : Int) (acc : List (Int × Dlist))
        (t : Int) (cmd : String) (dl : Dlist),
        backup_parse_command rec = (LF, some (t, cmd, dl)) → mts ≠ -1 → t < mts →
        reindexChunk (rec :: rest) mts acc = Except.error acc)
    ∧ (∀ (chunk : List RawRecord) (rest : List (List RawRecord))
        (acc acc2 : List (Int × Dlist)),
        reindexChunk chunk (-1) acc = Except.error acc2 →
        reindexChunks (chunk :: rest) acc = ReindexResult.fatal acc2) := by
  refine ⟨?_, ?_, ?_⟩
  · intro recs
    induction recs with
    | nil =>
      intro mts acc mts2 acc2 _ hr
      simp only [reindexChunk, Except.ok.injEq, Prod.mk.injEq] at hr
      exact hr.1.symm
    | cons rec rest ih =>
      intro mts acc mts2 acc2 h hr
      simp only [reindexChunk] at hr
      cases hst : chunkStep rec mts with
      | brk =>
        rw [hst] at hr
        simp only [Except.ok.injEq, Prod.mk.injEq] at hr
        exact hr.1.symm
      | fatal =>
        rw [hst] at hr
        exact absurd hr (by simp)
      | cont m s =>
        have hm : m = mts := chunkStep_cursor rec mts h m s hst
        rw [hst] at hr
        cases s with
        | none => exact hm ▸ ih mts acc mts2 acc2 h (hm ▸ hr)
        | some e => exact hm ▸ ih mts (acc ++ [e]) mts2 acc2 h (hm ▸ hr)
  · intro rec rest mts acc t cmd dl hp h hlt
    have hne : ¬ (LF = EOF) := by decide
    have hstep : chunkStep rec mts = StepRes.fatal := by
      simp [chunkStep, hp, hne, h, hlt]
    simp only [reindexChunk, hstep]
  · exact reindexChunks_fatal

/-- C1, witness: the amended theorem applied at concrete inputs.  Arm 1 at
the chunk 20 APPLY from cursor 10; arm 2 at the record 5 APPLY against
cursor 10 (fatal, nothing submitted); arm 3 at the chunk 10 APPLY, 5 APPLY
(the intra-chunk regression aborts the run with only the first record
submitted). -/
theorem C1_witness :
    ((10 : Int) = 10)
    ∧ reindexChunk [applyRec 5] 10 [] = Except.error []
    ∧ reindexChunks [[applyRec 10, applyRec 5]] [] =
        ReindexResult.fatal [(10, Dlist.mk ("FOO"))] :=
  ⟨C1_theorem.1 [applyRec 20] 10 [] 10 ([(20, Dlist.mk ("FOO"))]) (by decide) (by rfl),
   C1_theorem.2.1 (applyRec 5) [] 10 [] 5 APPLY (Dlist.mk ("foo")) (by rfl) (by decide)
     (by decide),
   C1_theorem.2.2 [applyRec 10, applyRec 5] [] [] [(10, Dlist.mk ("FOO"))] (by rfl)⟩

/-- C2, counterexample.  The claim says a log whose second chunk opens with
a timestamp older than the first chunk ends with makes reindex abort
before any further chunk, indexing nothing from the regressing record on.
Here chunk one ends at 100, chunk two opens at 50 — yet the run processes
a third chunk and indexes every record, the regressing one included: the
cursor is reset to -1 at each member start (src line 274 is inside the
member loop), so no check spans a chunk boundary. -/
theorem C2_counterexample :
    backup_reindex [[applyRec 100], [applyRec 50], [applyRec 70]] =
      ReindexResult.done
        [(100, Dlist.mk ("FOO")), (50, Dlist.mk ("FOO")), (70, Dlist.mk ("FOO"))] := by
  decide

/-- C2, amended.  Timestamp monotonicity is not enforced across chunk
boundaries: the cursor restarts unset at every chunk, so the processing of
a chunk is independent of all earlier chunk timestamps — whenever every
chunk of the log individually completes without an intra-chunk fatal, the
entire reindex runs to completion, regardless of any timestamp decrease
from one chunk to the next. -/
theorem C2_theorem (chunks : List (List RawRecord)) (h : chunks.all chunkOk = true) :
    ∃ out, backup_reindex chunks = ReindexResult.done out :=
  reindexChunks_all_ok chunks [] h

/-- C2, witness: the amended theorem applied to the two-chunk log whose
second chunk opens (50) below where the first ends (100): the reindex
still completes. -/
theorem C2_witness :
    ∃ out, backup_reindex [[applyRec 100], [applyRec 50]] = ReindexResult.done out :=
  C2_theorem [[applyRec 100], [applyRec 50]] (by decide)

/-- C5, counterexample.  The claim says every malformed parseRecord outcome
ends the chunk loop, with no further record of that chunk parsed or
indexed.  Here the first record of the chunk is malformed with a non-EOF
code (its payload parses but the terminator is a space, so
backup_parse_command returns 32, src lines 237-242); since 32 ≠ EOF the
loop does not break (src line 282 tests only c == EOF), and the next
record of the same chunk is parsed and indexed. -/
theorem C5_counterexample :
    (backup_parse_command (badTermRec 10)).2 = none
    ∧ (backup_parse_command (badTermRec 10)).1 ≠ EOF
    ∧ backup_reindex [[badTermRec 10, applyRec 20]] =
        ReindexResult.done [(20, Dlist.mk ("FOO"))] :=
  ⟨by decide, by decide, by decide⟩

/-- C5, amended.  A parseRecord outcome ends the chunk loop exactly when
the code it returns is EOF: endOfStream outcomes do (arm 1), but a
malformed outcome whose returned code is an ordinary character (for
example a terminator mismatch) does not — the loop continues with the
remaining records of the same chunk, the failed record contributing no
submission, while the indeterminate value read from the uninitialized
timestamp local feeds the cursor logic (arms 2 and 3: from an unset
cursor, and from a set cursor not above the junk value). -/
theorem C5_theorem :
    (∀ (rec : RawRecord) (rest : List RawRecord) (mts : Int) (acc : List (Int × Dlist)),
        (backup_parse_command rec).1 = EOF →
        reindexChunk (rec :: rest) mts acc = Except.ok (mts, acc))
    ∧ (∀ (rec : RawRecord) (rest : List RawRecord) (acc : List (Int × Dlist)),
        (backup_parse_command rec).1 ≠ EOF → (backup_parse_command rec).2 = none →
        reindexChunk (rec :: rest) (-1) acc = reindexChunk rest rec.junkTs acc)
    ∧ (∀ (rec : RawRecord) (rest : List RawRecord) (mts : Int) (acc : List (Int × Dlist)),
        (backup_parse_command rec).1 ≠ EOF → (backup_parse_command rec).2 = none →
        mts ≠ -1 → ¬ mts > rec.junkTs →
        reindexChunk (rec :: rest) mts acc = reindexChunk rest mts acc) := by
  refine ⟨?_, ?_, ?_⟩
  · intro rec rest mts acc h1
    have hstep : chunkStep rec mts = StepRes.brk := by
      simp [chunkStep, h1]
    simp only [reindexChunk, hstep]
  · intro rec rest acc h1 h2
    have hstep : chunkStep rec (-1) = StepRes.cont rec.junkTs none := by
      simp [chunkStep, submitOf, h1, h2]
    simp only [reindexChunk, hstep]
  · intro rec rest mts acc h1 h2 h3 h4
    have hstep : chunkStep rec mts = StepRes.cont mts none := by
      simp [chunkStep, submitOf, h1, h2, h3, h4]
    simp only [reindexChunk, hstep]

/-- C5, witness: the amended theorem applied at concrete inputs — an
endOfStream record breaks the loop; a bad-terminator record (returned
code 32) lets the loop continue into the rest of the chunk, both from an
unset cursor and from cursor 0. -/
theorem C5_witness :
    reindexChunk [eofRec, applyRec 9] 3 [] = Except.ok (3, [])
    ∧ reindexChunk [badTermRec 1, applyRec 9] (-1) [] = reindexChunk [applyRec 9] 0 []
    ∧ reindexChunk [badTermRec 1, applyRec 9] 0 [] = reindexChunk [applyRec 9] 0 [] :=
  ⟨C5_theorem.1 eofRec [applyRec 9] 3 [] (by decide),
   C5_theorem.2.1 (badTermRec 1) [applyRec 9] [] (by decide) (by decide),
   C5_theorem.2.2 (badTermRec 1) [applyRec 9] 0 [] (by decide) (by decide) (by decide)
     (by decide)⟩

/-- C6: during reindex, a successfully parsed record processed without a
fatal abort is submitted to index-write exactly when its verb equals the
literal "APPLY" under case-sensitive string equality (strcmp, src line
289); a non-matching record (for example lowercase "apply") is skipped
with nothing submitted and its payload untouched; and the payload
command-name field is upper-cased exactly on the indexing path, after the
verb check (src line 292): the submitted pair carries ucase of the dlist
name, while the skip branch leaves the accumulator unchanged. -/
theorem C6_theorem (rec : RawRecord) (rest : List RawRecord) (mts : Int)
    (acc : List (Int × Dlist)) (t : Int) (cmd : String) (dl : Dlist)
    (hp : backup_parse_command rec = (LF, some (t, cmd, dl)))
    (hok : mts = -1 ∨ ¬ mts > t) :
    reindexChunk (rec :: rest) mts acc =
      reindexChunk rest (if mts = -1 then t else mts)
        (if cmd = APPLY then acc ++ [(t, Dlist.mk (ucase dl.name))] else acc) :=
  reindexChunk_cons_success rec rest mts acc t cmd dl hp hok

/-- C6, witness: the theorem applied to the record 7 APPLY (foo), which is
submitted as (7, FOO) — the name upper-cased — and to the record
7 apply (foo) with the lowercase verb, which is not submitted at all. -/
theorem C6_witness :
    reindexChunk [mkRec 7 APPLY ("foo")] (-1) [] =
      Except.ok (7, [(7, Dlist.mk ("FOO"))])
    ∧ reindexChunk [mkRec 7 ("apply") ("foo")] (-1) [] = Except.ok (7, []) :=
  ⟨(C6_theorem (mkRec 7 APPLY ("foo")) [] (-1) [] 7 APPLY (Dlist.mk ("foo")) (by rfl)
      (Or.inl rfl)).trans (by rfl),
   (C6_theorem (mkRec 7 ("apply") ("foo")) [] (-1) [] 7 ("apply") (Dlist.mk ("foo")) (by rfl)
      (Or.inl rfl)).trans (by rfl)⟩

/-- C10: the unset state of the per-chunk cursor is the sentinel -1
(src line 274).  If the first successfully parsed record of a chunk has
timestamp exactly -1, assigning it to the cursor leaves the cursor unset:
the record is processed (and indexed if it is an APPLY) but is not
recorded as the first — the loop continues with the cursor still -1
(arm 1) — and the ordering check is never applied against an unset
cursor, so no record can trigger fatal() while the cursor is -1 (arm 2),
in particular not the record following the -1 one. -/
theorem C10_theorem :
    (∀ (rec : RawRecord) (rest : List RawRecord) (acc : List (Int × Dlist))
        (cmd : String) (dl : Dlist),
        backup_parse_command rec = (LF, some (-1, cmd, dl)) →
        reindexChunk (rec :: rest) (-1) acc =
          reindexChunk rest (-1)
            (if cmd = APPLY then acc ++ [((-1 : Int), Dlist.mk (ucase dl.name))] else acc))
    ∧ (∀ rec : RawRecord, chunkStep rec (-1) ≠ StepRes.fatal) := by
  constructor
  · intro rec rest acc cmd dl hp
    have h := reindexChunk_cons_success rec rest (-1) acc (-1) cmd dl hp (Or.inl rfl)
    simpa using h
  · intro rec h
    simp only [chunkStep] at h
    split at h
    · exact absurd h (by simp)
    · split at h
      · exact absurd h (by simp)
      · exact ((by assumption : ¬True) trivial).elim

/-- C10, witness: a chunk whose first record has timestamp -1 followed by
a record with the even older timestamp -5: the -1 record leaves the cursor
unset, so the -5 record triggers no ordering check — it is treated as the
first of the chunk and both are indexed, with no fatal abort. -/
theorem C10_witness :
    reindexChunk [mkRec (-1) APPLY ("foo"), applyRec (-5)] (-1) [] =
      Except.ok (-5, [((-1 : Int), Dlist.mk ("FOO")), ((-5 : Int), Dlist.mk ("FOO"))])
    ∧ chunkStep (applyRec (-5)) (-1) ≠ StepRes.fatal :=
  ⟨(C10_theorem.1 (mkRec (-1) APPLY ("foo")) [applyRec (-5)] [] APPLY (Dlist.mk ("foo"))
      (by rfl)).trans (by rfl),
   C10_theorem.2 (applyRec (-5))⟩

/-- C3, counterexample.  The claim says an unavailable lock makes open
return an immediate busy failure.  With the file open succeeding and a
conflicting holder on the lock (and no other OS lock error), the call
instead blocks inside lock_setlock waiting for the lock: the call site
passes the nb argument as 0 (src line 146, the argument annotated /*nb*/),
selecting the blocking regime, so no error return of any kind happens
while the conflict lasts. -/
theorem C3_counterexample :
    backup_open_internal ("n") LockType.exclusive DataMode.normal IndexMode.read envLocked =
      OpenOutcome.blocked := by
  decide

/-- C3, amended.  open acquires the whole-file advisory lock blocking: for
every open call where the file open succeeded and the lock of the
negotiated type is unavailable (with no other OS lock error), open does
not return — it waits inside lock_setlock for the lock to become free,
rather than failing busy, because the call site passes the nonblocking
flag as 0. -/
theorem C3_theorem (name : String) (lt : LockType) (dm : DataMode) (im : IndexMode)
    (env : Env) (h1 : env.openOk = true) (h2 : env.lockFree = false)
    (h3 : env.lockOsErr = none) :
    backup_open_internal name lt dm im env = OpenOutcome.blocked := by
  simp [backup_open_internal, lock_setlock, h1, h2, h3]

/-- C3, witness: the amended theorem at a concrete held-lock environment,
with modes distinct from the counterexample. -/
theorem C3_witness :
    backup_open_internal ("x") LockType.shared DataMode.append IndexMode.write envLocked =
      OpenOutcome.blocked :=
  C3_theorem ("x") LockType.shared DataMode.append IndexMode.write envLocked rfl rfl rfl

/-- C4, counterexample.  The claim says every failure point unwinds
everything acquired, including releasing the lock of either type, SHARED
or EXCLUSIVE.  Here a SHARED open (requested SHARED, data NORMAL, so not
overridden) succeeds in opening the file and acquiring the lock
(lockAcquired = true in the outcome), then the index open fails — and the
unwind does not call lock_unlock: the guard `if (backup->lock_type)` at
src line 186 tests the numeric field, and BACKUP_LOCK_SHARED is 0. -/
theorem C4_counterexample :
    backup_open_internal ("n") LockType.shared DataMode.normal IndexMode.read envDbFail =
      OpenOutcome.err (-1) true cleanShared
    ∧ cleanShared.unlockCalled = false := by
  exact ⟨by decide, by decide⟩

/-- C4, amended.  open never returns a partial handle and every failure
frees the derived paths, closes the descriptor exactly when it had been
opened, and never needs to close the index (no failure point follows the
index open); but the explicit lock release runs only when the negotiated
lock type has a nonzero enum value, i.e. EXCLUSIVE: a SHARED lock acquired
before a later failure is not explicitly unlocked by the unwind (its
release is left to the closing of the descriptor). -/
theorem C4_theorem (name : String) (lt : LockType) (dm : DataMode) (im : IndexMode)
    (env : Env) (r : Int) (acq : Bool) (clean : Cleanup)
    (h : backup_open_internal name lt dm im env = OpenOutcome.err r acq clean) :
    clean.namesFreed = true ∧ clean.dbClosed = false ∧ clean.fdClosed = env.openOk
    ∧ clean.unlockCalled = (acq && ((negotiatedLock lt dm).toNat != 0)) := by
  simp only [backup_open_internal] at h
  split at h
  · rename_i hoo
    simp only [OpenOutcome.err.injEq] at h
    obtain ⟨h1, h2, h3⟩ := h
    subst h2; subst h3
    simp [errorUnwind, hoo]
  · rename_i hoo
    have hot : env.openOk = true := by
      revert hoo; cases env.openOk <;> simp
    split at h
    · exact absurd h (by simp)
    · simp only [OpenOutcome.err.injEq] at h
      obtain ⟨h1, h2, h3⟩ := h
      subst h2; subst h3
      simp [errorUnwind, hot]
    · split at h
      · simp only [OpenOutcome.err.injEq] at h
        obtain ⟨h1, h2, h3⟩ := h
        subst h2; subst h3
        simp [errorUnwind, hot]
      · split at h
        · simp only [OpenOutcome.err.injEq] at h
          obtain ⟨h1, h2, h3⟩ := h
          subst h2; subst h3
          simp [errorUnwind, hot]
        · exact absurd h (by simp)

/-- C4, witness: the amended theorem at the concrete SHARED-lock failure
of the counterexample environment: the paths are freed, the descriptor
closed, the index was never open, and the unlock did not run (SHARED has
enum value 0). -/
theorem C4_witness :
    cleanShared.namesFreed = true ∧ cleanShared.dbClosed = false
    ∧ cleanShared.fdClosed = envDbFail.openOk
    ∧ cleanShared.unlockCalled =
        (true && ((negotiatedLock LockType.shared DataMode.normal).toNat != 0)) :=
  C4_theorem ("n") LockType.shared DataMode.normal IndexMode.read envDbFail (-1) true
    cleanShared (by rfl)

/-- C7, counterexample.  The claim says index mode READ (like WRITE)
applies the ordered upgrade steps whenever the stored schema version is
older than current.  Opening with READ over a stored version 1 and current
version 2 succeeds but applies no upgrade step and stays at version 1:
only WRITE and CREATE set initsql/upgradesql (src lines 151-161); READ
leaves both NULL, so sqldb_open gets no upgrade steps to apply. -/
theorem C7_counterexample :
    backup_open_internal ("n") LockType.shared DataMode.normal IndexMode.read
        (goodEnv (some 1) 2) =
      OpenOutcome.ok
        { lock_type := LockType.shared, data_mode := DataMode.normal,
          index_mode := IndexMode.read, name := "n", gzname := "n.gz",
          idxname := "n.index", oldidxname := none,
          db := { version := 1, appliedUpgrades := [], freshInit := false } } := by
  decide

/-- C7, amended.  For every open with index mode WRITE, the existing index
schema is opened and the ordered upgrade steps are applied whenever the
stored schema version is older than the current version (arm 1); with
index mode READ no init or upgrade SQL is passed, so an older stored
schema is opened as-is with no upgrade applied (arm 2); a stored version
newer than the current one is an open error, for WRITE and for READ alike
(arms 3 and 4). -/
theorem C7_theorem (name : String) (lt : LockType) (v cur : Nat) :
    (v < cur →
      backup_open_internal name lt DataMode.normal IndexMode.write (goodEnv (some v) cur) =
        OpenOutcome.ok
          { lock_type := lt, data_mode := DataMode.normal, index_mode := IndexMode.write,
            name := name, gzname := name ++ (".gz"), idxname := name ++ (".index"),
            oldidxname := none,
            db := { version := cur, appliedUpgrades := List.range' (v + 1) (cur - v),
                    freshInit := false } })
    ∧ (v < cur →
      backup_open_internal name lt DataMode.normal IndexMode.read (goodEnv (some v) cur) =
        OpenOutcome.ok
          { lock_type := lt, data_mode := DataMode.normal, index_mode := IndexMode.read,
            name := name, gzname := name ++ (".gz"), idxname := name ++ (".index"),
            oldidxname := none,
            db := { version := v, appliedUpgrades := [], freshInit := false } })
    ∧ (cur < v →
      backup_open_internal name lt DataMode.normal IndexMode.write (goodEnv (some v) cur) =
        OpenOutcome.err (-1) true
          { unlockCalled := lt.toNat != 0, fdClosed := true, namesFreed := true,
            dbClosed := false })
    ∧ (cur < v →
      backup_open_internal name lt DataMode.normal IndexMode.read (goodEnv (some v) cur) =
        OpenOutcome.err (-1) true
          { unlockCalled := lt.toNat != 0, fdClosed := true, namesFreed := true,
            dbClosed := false }) := by
  refine ⟨?_, ?_, ?_, ?_⟩
  · intro hv
    have h1 : ¬ (cur < v) := by omega
    simp [backup_open_internal, goodEnv, lock_setlock, sqldb_open, negotiatedLock,
      errorUnwind, h1, hv]
  · intro hv
    have h1 : ¬ (cur < v) := by omega
    simp [backup_open_internal, goodEnv, lock_setlock, sqldb_open, negotiatedLock,
      errorUnwind, h1, hv]
  · intro hv
    simp [backup_open_internal, goodEnv, lock_setlock, sqldb_open, negotiatedLock,
      errorUnwind, hv]
  · intro hv
    simp [backup_open_internal, goodEnv, lock_setlock, sqldb_open, negotiatedLock,
      errorUnwind, hv]

/-- C7, witness: the amended theorem at stored version 1, current 2 (WRITE
upgrades through step 2, READ stays at 1) and at stored version 3,
current 2 (both modes fail the open). -/
theorem C7_witness :
    backup_open_internal ("n") LockType.shared DataMode.normal IndexMode.write
        (goodEnv (some 1) 2) =
      OpenOutcome.ok
        { lock_type := LockType.shared, data_mode := DataMode.normal,
          index_mode := IndexMode.write, name := "n", gzname := ("n") ++ (".gz"),
          idxname := ("n") ++ (".index"), oldidxname := none,
          db := { version := 2, appliedUpgrades := List.range' 2 1, freshInit := false } }
    ∧ backup_open_internal ("n") LockType.shared DataMode.normal IndexMode.read
        (goodEnv (some 3) 2) =
      OpenOutcome.err (-1) true
        { unlockCalled := LockType.shared.toNat != 0, fdClosed := true, namesFreed := true,
          dbClosed := false } :=
  ⟨(C7_theorem ("n") LockType.shared 1 2).1 (by decide),
   (C7_theorem ("n") LockType.shared 3 2).2.2.2 (by decide)⟩

/-- C8: for every successful open, the handle records exactly the data
mode and index mode it was opened with, its lock type is the negotiated
one, and data modes APPEND and CREATE force the held lock to EXCLUSIVE
regardless of the requested lock type (src lines 126-133 overwrite
lock_type before the lock is taken; lines 144, 148, 180 record the
modes). -/
theorem C8_theorem (name : String) (lt : LockType) (dm : DataMode) (im : IndexMode)
    (env : Env) (b : Backup)
    (h : backup_open_internal name lt dm im env = OpenOutcome.ok b) :
    b.data_mode = dm ∧ b.index_mode = im ∧ b.lock_type = negotiatedLock lt dm
    ∧ ((dm = DataMode.append ∨ dm = DataMode.create) → b.lock_type = LockType.exclusive) := by
  simp only [backup_open_internal] at h
  split at h
  · exact absurd h (by simp)
  · split at h
    · exact absurd h (by simp)
    · exact absurd h (by simp)
    · split at h
      · exact absurd h (by simp)
      · split at h
        · exact absurd h (by simp)
        · simp only [OpenOutcome.ok.injEq] at h
          subst h
          refine ⟨rfl, rfl, rfl, ?_⟩
          intro hdm
          rcases hdm with h1 | h1 <;> subst h1 <;> rfl

/-- C8, witness: a SHARED request with data mode APPEND yields a handle
holding the EXCLUSIVE lock, with the given data and index modes
recorded. -/
theorem C8_witness :
    bAppend.data_mode = DataMode.append ∧ bAppend.index_mode = IndexMode.write
    ∧ bAppend.lock_type = negotiatedLock LockType.shared DataMode.append
    ∧ ((DataMode.append = DataMode.append ∨ DataMode.append = DataMode.create) →
        bAppend.lock_type = LockType.exclusive) :=
  C8_theorem ("n") LockType.shared DataMode.append IndexMode.write (goodEnv (some 2) 2)
    bAppend (by rfl)

/-- C9: the claim says backup_close releases the file lock, closes the log
descriptor, closes/commits the index, frees the paths and invalidates the
handle, being the sole legitimate path to releasing the lock.  The source
body of backup_close (src lines 317-320) is exactly `return -1`: it
performs none of those actions — every resource of the open handle is
left exactly as it was and the call reports failure — even though
backup_reindex relies on it for teardown (src line 307).  This theorem
records that stub behaviour: the world is unchanged and -1 returned. -/
theorem C9_theorem : ∀ w : World, backup_close w = (w, -1)
    ∧ (backup_close w).1.lockHeld = w.lockHeld
    ∧ (backup_close w).1.fdOpen = w.fdOpen
    ∧ (backup_close w).1.dbOpen = w.dbOpen
    ∧ (backup_close w).1.handleValid = w.handleValid :=
  fun _ => ⟨rfl, rfl, rfl, rfl, rfl⟩

end CyrusBackup
